import Mathlib

set_option linter.unusedSectionVars false

/-!
# Verification of the joystate store (`src/index.ts`)

Shallow embedding of the reactive keyed store. Keys, values and errors are
type parameters `K`, `V`, `E`. JavaScript objects used as partial maps become
functions `K → Option _` (`none` = property absent or `undefined`); the
`knowns` `Set` becomes `K → Bool`; subscriptions are identified by `Nat` ids
kept in insertion order. The microtask queue is modelled by a counter of
pending `doNotify` callbacks, and each flush appends a `Broadcast` record
(recipients and delivered state) to a log. Teardown callbacks stored in
`disconnects` are modelled by `Nat` identifiers; invoking one appends its id
to the `fired` log. The `async` function `set` is split at its single `await`
point into a synchronous phase `setStart` and a settlement continuation
`setSettle` that receives the outcome of the awaited promise as
`Except E V` (`.error` = rejection).
-/

namespace Joystate

/-- Pointwise update of a function-as-map, used for every `obj[key] = v`,
`delete obj[key]` (with `none`) and single-key object spread in the source. -/
def upd {K : Type} [DecidableEq K] {α : Type} (f : K → α) (k : K) (a : α) : K → α :=
  fun j => if j = k then a else f j

/-- The `Store<T>` record of `src/index.ts` (lines 32-41). -/
structure Store (K V E : Type) where
  state : K → Option V
  subscriptions : List Nat
  knowns : K → Bool
  lives : K → Option Bool
  loadings : K → Option Bool
  disconnects : K → Option Nat
  errors : K → Option E
  notifyScheduled : Bool

/-- One delivered flush: the subscriber ids iterated by `notify` and the
state snapshot passed to each of them. -/
structure Broadcast (K V : Type) where
  recipients : List Nat
  state : K → Option V

/-- A store together with the scheduling environment: the number of queued
`doNotify` microtasks, the log of delivered broadcasts, and the log of
invoked teardown ids. -/
structure World (K V E : Type) where
  store : Store K V E
  pending : Nat
  broadcasts : List (Broadcast K V)
  fired : List Nat

variable {K V E : Type} [DecidableEq K]

/-- `get(store, key)` (lines 172-177). -/
def get (st : Store K V E) (k : K) : Option V :=
  st.state k

/-- `known(store, ...keys)` (lines 229-236): true iff all keys are known. -/
def known (st : Store K V E) (keys : List K) : Bool :=
  keys.all fun k => st.knowns k

/-- `loading(store, ...keys)` (lines 242-252): true iff any key's `loadings`
entry is truthy. -/
def loading (st : Store K V E) (keys : List K) : Bool :=
  keys.any fun k => (st.loadings k).getD false

/-- `loaded(store, ...keys)` (lines 258-268): true iff no key is loading. -/
def loaded (st : Store K V E) (keys : List K) : Bool :=
  keys.all fun k => !(st.loadings k).getD false

/-- `error(store, ...keys)` (lines 274-284): first truthy error found. -/
def error (st : Store K V E) : List K → Option E
  | [] => none
  | k :: rest =>
    match st.errors k with
    | some e => some e
    | none => error st rest

/-- `scheduleNotify(store)` (lines 286-303): early-return when already
scheduled, otherwise enqueue one `doNotify` callback and set the flag. -/
def scheduleNotify (w : World K V E) : World K V E :=
  if w.store.notifyScheduled then w
  else
    { w with
      pending := w.pending + 1
      store := { w.store with notifyScheduled := true } }

/-- `notify(store)` (lines 305-310): broadcast the current state to the
current subscription set, then clear the flag. -/
def notify (w : World K V E) : World K V E :=
  { w with
    broadcasts := w.broadcasts ++ [⟨w.store.subscriptions, w.store.state⟩]
    store := { w.store with notifyScheduled := false } }

/-- Running one queued `doNotify` callback (lines 291-294): `notify(store)`
then `store.notifyScheduled = false`. No-op when the queue is empty. -/
def runFlush (w : World K V E) : World K V E :=
  if w.pending = 0 then w
  else
    let w1 := notify { w with pending := w.pending - 1 }
    { w1 with store := { w1.store with notifyScheduled := false } }

/-- The per-key loop body of `setState` (lines 73-83): mark known, clear
error, loading = false, live = false, fire and remove any disconnect. -/
def setStateKey (w : World K V E) (k : K) : World K V E :=
  let st := w.store
  let st1 :=
    { st with
      knowns := upd st.knowns k true
      errors := upd st.errors k none
      loadings := upd st.loadings k (some false)
      lives := upd st.lives k (some false) }
  match st1.disconnects k with
  | some id =>
    { w with
      store := { st1 with disconnects := upd st1.disconnects k none }
      fired := w.fired ++ [id] }
  | none => { w with store := st1 }

/-- Last binding wins, matching `{...store.state, ...merge}` where a later
duplicate key in the merge object overrides an earlier one. -/
def lookupLast (merge : List (K × V)) (k : K) : Option V :=
  (merge.reverse.find? fun kv => kv.1 = k).map Prod.snd

/-- `setState(store, merge)` (lines 72-86). -/
def setState (w : World K V E) (merge : List (K × V)) : World K V E :=
  let w1 := (merge.map Prod.fst).foldl setStateKey w
  let w2 :=
    { w1 with
      store :=
        { w1.store with
          state := fun j =>
            match lookupLast merge j with
            | some v => some v
            | none => w1.store.state j } }
  scheduleNotify w2

/-- The synchronous phase of `set(store, key, value)` (lines 93-98), run up
to the `await`: mark known, withdraw the value (`[key]: undefined`), delete
the error, loading = true, live = false, request notification. The argument
`value` is not consulted here; the source passes every value — literal or
promise — through `await Promise.resolve(value)`. -/
def setStart (w : World K V E) (k : K) : World K V E :=
  let st := w.store
  scheduleNotify
    { w with
      store :=
        { st with
          knowns := upd st.knowns k true
          state := upd st.state k none
          errors := upd st.errors k none
          loadings := upd st.loadings k (some true)
          lives := upd st.lives k (some false) } }

/-- The settlement continuation of `set` (lines 100-108): the `try` branch
writes the resolved value, the `catch` branch withdraws the value and
records the rejection reason; either way loading = false and a notification
is requested. -/
def setSettle (w : World K V E) (k : K) (res : Except E V) : World K V E :=
  let st := w.store
  let st1 :=
    match res with
    | Except.ok v => { st with state := upd st.state k (some v) }
    | Except.error e =>
      { st with
        state := upd st.state k none
        errors := upd st.errors k (some e) }
  scheduleNotify { w with store := { st1 with loadings := upd st1.loadings k (some false) } }

/-- The settlement continuation with exception propagation made explicit:
`await` re-raises a rejection (`Except.bind`), the `try`/`catch` of the
source is the surrounding `match`. A rejection escaping `set` — making its
returned promise reject — would surface here as `Except.error`. -/
def setSettleM (w : World K V E) (k : K) (res : Except E V) : Except E (World K V E) :=
  let tryPart : Except E (Store K V E) :=
    match res with
    | Except.ok v => Except.ok { w.store with state := upd w.store.state k (some v) }
    | Except.error e => Except.error e
  let st1 : Store K V E :=
    match tryPart with
    | Except.ok st => st
    | Except.error e =>
      { w.store with
        state := upd w.store.state k none
        errors := upd w.store.errors k (some e) }
  Except.ok
    (scheduleNotify { w with store := { st1 with loadings := upd st1.loadings k (some false) } })

/-- The mutable `closed` flag of the handle returned by `observer`. -/
structure Handle where
  closed : Bool
deriving DecidableEq

/-- The construction phase of `observer(store, key, options)` (lines
111-122): loading = true and live = true are set immediately; the handle
starts open. The source does not touch `knowns`, `disconnects`, or the
scheduler here. -/
def observerInit (w : World K V E) (k : K) : Handle × World K V E :=
  (⟨false⟩,
   { w with
     store :=
       { w.store with
         loadings := upd w.store.loadings k (some true)
         lives := upd w.store.lives k (some true) } })

/-- `observer.error(err)` (lines 145-156): no-op when closed; otherwise
close the handle, loading = false, withdraw the value, record the error,
live = false, request notification. -/
def obsError (h : Handle) (w : World K V E) (k : K) (err : E) : Handle × World K V E :=
  if h.closed then (h, w)
  else
    (⟨true⟩,
     scheduleNotify
       { w with
         store :=
           { w.store with
             loadings := upd w.store.loadings k (some false)
             state := upd w.store.state k none
             errors := upd w.store.errors k (some err)
             lives := upd w.store.lives k (some false) } })

/-- `observer.next(val)` (lines 123-144): no-op when closed; a transform
throw is routed to `observer.error`; otherwise loading = false, write the
(possibly transformed) value, request notification. The transform is
modelled as a pure function `V → Except E V` (`.error` = throw); the source
evaluates it a second time at the state write, which for a deterministic
transform yields the same value, so the embedding evaluates it once. -/
def obsNext (t : Option (V → Except E V)) (h : Handle) (w : World K V E) (k : K)
    (v : V) : Handle × World K V E :=
  if h.closed then (h, w)
  else
    match t with
    | none =>
      (h,
       scheduleNotify
         { w with
           store :=
             { w.store with
               loadings := upd w.store.loadings k (some false)
               state := upd w.store.state k (some v) } })
    | some f =>
      match f v with
      | Except.error err => obsError h w k err
      | Except.ok fv =>
        (h,
         scheduleNotify
           { w with
             store :=
               { w.store with
                 loadings := upd w.store.loadings k (some false)
                 state := upd w.store.state k (some fv) } })

/-- `observer.next` with exception propagation made explicit: the first
transform evaluation sits inside the source's `try`/`catch` (the `match`),
while the second evaluation at the state write (line 141) is outside any
`try`; a throw there would escape `next` and surface as `Except.error`. -/
def obsNextM (t : Option (V → Except E V)) (h : Handle) (w : World K V E) (k : K)
    (v : V) : Except E (Handle × World K V E) :=
  if h.closed then Except.ok (h, w)
  else
    match t with
    | none =>
      Except.ok
        (h,
         scheduleNotify
           { w with
             store :=
               { w.store with
                 loadings := upd w.store.loadings k (some false)
                 state := upd w.store.state k (some v) } })
    | some f =>
      match f v with
      | Except.error err => Except.ok (obsError h w k err)
      | Except.ok _ =>
        match f v with
        | Except.error e2 => Except.error e2
        | Except.ok fv =>
          Except.ok
            (h,
             scheduleNotify
               { w with
                 store :=
                   { w.store with
                     loadings := upd w.store.loadings k (some false)
                     state := upd w.store.state k (some fv) } })

/-- `observer.complete()` (lines 157-166): no-op when closed; otherwise
close the handle, loading = false, live = false, request notification. The
value, if any, is retained. -/
def obsComplete (h : Handle) (w : World K V E) (k : K) : Handle × World K V E :=
  if h.closed then (h, w)
  else
    (⟨true⟩,
     scheduleNotify
       { w with
         store :=
           { w.store with
             loadings := upd w.store.loadings k (some false)
             lives := upd w.store.lives k (some false) } })

/-- The per-key loop body of `unset` (lines 180-190): remove from `knowns`,
copy the state object, fire and remove any disconnect, delete the error,
loading and state entries. -/
def unsetKey (w : World K V E) (k : K) : World K V E :=
  let st := w.store
  let st1 := { st with knowns := upd st.knowns k false }
  let fired1 :=
    match st1.disconnects k with
    | some id => w.fired ++ [id]
    | none => w.fired
  let st2 :=
    match st1.disconnects k with
    | some _ => { st1 with disconnects := upd st1.disconnects k none }
    | none => st1
  { w with
    fired := fired1
    store :=
      { st2 with
        errors := upd st2.errors k none
        loadings := upd st2.loadings k none
        state := upd st2.state k none } }

/-- `unset(store, ...keys)` (lines 179-192): the per-key loop followed by a
single `scheduleNotify`. -/
def unset (w : World K V E) (keys : List K) : World K V E :=
  scheduleNotify (keys.foldl unsetKey w)

/-- `subscribe(store, sub)` with the default `immediate = false` (lines
194-206): add the subscriber to the set consulted at flush time. Set
semantics of `Set.add`: no duplicate, insertion order. -/
def subscribeOp (w : World K V E) (s : Nat) : World K V E :=
  { w with
    store :=
      { w.store with
        subscriptions :=
          if s ∈ w.store.subscriptions then w.store.subscriptions
          else w.store.subscriptions ++ [s] } }

/-- A Key Writer mutation: one synchronous call to `setState`, the
synchronous phase of `set`, one settlement continuation of `set`, or one
call to `unset`. -/
inductive WOp (K V E : Type) where
  | stateOp (merge : List (K × V))
  | startOp (k : K)
  | settleOp (k : K) (res : Except E V)
  | unsetOp (keys : List K)

/-- Apply one Key Writer mutation. -/
def applyOp (w : World K V E) : WOp K V E → World K V E
  | WOp.stateOp m => setState w m
  | WOp.startOp k => setStart w k
  | WOp.settleOp k r => setSettle w k r
  | WOp.unsetOp ks => unset w ks

/-- A synchronous burst of Key Writer mutations, run back to back with no
intervening flush. -/
def runBurst (w : World K V E) (ops : List (WOp K V E)) : World K V E :=
  ops.foldl applyOp w

/-- An empty store that has never scheduled a notification, with no queued
flush and empty logs; the base world of the concrete scenarios. -/
def emptyWorld : World Nat Nat Nat :=
  { store :=
      { state := fun _ => none
        subscriptions := []
        knowns := fun _ => false
        lives := fun _ => none
        loadings := fun _ => none
        disconnects := fun _ => none
        errors := fun _ => none
        notifyScheduled := false }
    pending := 0
    broadcasts := []
    fired := [] }

/-- A store whose key `0` carries a recorded teardown (id `3`), used to
exercise the teardown-firing branch of `unset`. The library itself never
populates `disconnects`; this world stands for a hypothetical caller that
did. -/
def discWorld : World Nat Nat Nat :=
  { emptyWorld with
    store :=
      { emptyWorld.store with
        disconnects := fun j => if j = 0 then some 3 else none } }

/-! ## Basic lemmas about the map update and the scheduler -/

@[simp] theorem upd_self {α : Type} (f : K → α) (k : K) (a : α) : upd f k a k = a := by
  simp [upd]

@[simp] theorem upd_ne {α : Type} (f : K → α) (k : K) (a : α) {j : K} (h : j ≠ k) :
    upd f k a j = f j := by
  simp [upd, h]

theorem scheduleNotify_state (w : World K V E) :
    (scheduleNotify w).store.state = w.store.state := by
  unfold scheduleNotify; split <;> rfl

theorem scheduleNotify_knowns (w : World K V E) :
    (scheduleNotify w).store.knowns = w.store.knowns := by
  unfold scheduleNotify; split <;> rfl

theorem scheduleNotify_loadings (w : World K V E) :
    (scheduleNotify w).store.loadings = w.store.loadings := by
  unfold scheduleNotify; split <;> rfl

theorem scheduleNotify_lives (w : World K V E) :
    (scheduleNotify w).store.lives = w.store.lives := by
  unfold scheduleNotify; split <;> rfl

theorem scheduleNotify_errors (w : World K V E) :
    (scheduleNotify w).store.errors = w.store.errors := by
  unfold scheduleNotify; split <;> rfl

theorem scheduleNotify_disconnects (w : World K V E) :
    (scheduleNotify w).store.disconnects = w.store.disconnects := by
  unfold scheduleNotify; split <;> rfl

theorem scheduleNotify_subscriptions (w : World K V E) :
    (scheduleNotify w).store.subscriptions = w.store.subscriptions := by
  unfold scheduleNotify; split <;> rfl

theorem scheduleNotify_broadcasts (w : World K V E) :
    (scheduleNotify w).broadcasts = w.broadcasts := by
  unfold scheduleNotify; split <;> rfl

theorem scheduleNotify_fired (w : World K V E) :
    (scheduleNotify w).fired = w.fired := by
  unfold scheduleNotify; split <;> rfl

theorem scheduleNotify_scheduled (w : World K V E) :
    (scheduleNotify w).store.notifyScheduled = true := by
  unfold scheduleNotify; split
  · assumption
  · rfl

theorem scheduleNotify_pending (w : World K V E) :
    (scheduleNotify w).pending =
      if w.store.notifyScheduled = true then w.pending else w.pending + 1 := by
  unfold scheduleNotify; split <;> simp_all

/-! ## Evaluation lemmas for the read predicates -/

theorem loading_single (st : Store K V E) (k : K) :
    loading st [k] = (st.loadings k).getD false := by
  simp [loading]

theorem error_single (st : Store K V E) (k : K) :
    error st [k] = st.errors k := by
  cases h : st.errors k <;> simp [error, h]

/-! ## Field lemmas for the write operations -/

theorem setStart_state (w : World K V E) (k : K) :
    (setStart w k).store.state = upd w.store.state k none := by
  unfold setStart; rw [scheduleNotify_state]

theorem setStart_knowns (w : World K V E) (k : K) :
    (setStart w k).store.knowns = upd w.store.knowns k true := by
  unfold setStart; rw [scheduleNotify_knowns]

theorem setStart_loadings (w : World K V E) (k : K) :
    (setStart w k).store.loadings = upd w.store.loadings k (some true) := by
  unfold setStart; rw [scheduleNotify_loadings]

theorem setStart_lives (w : World K V E) (k : K) :
    (setStart w k).store.lives = upd w.store.lives k (some false) := by
  unfold setStart; rw [scheduleNotify_lives]

theorem setStart_errors (w : World K V E) (k : K) :
    (setStart w k).store.errors = upd w.store.errors k none := by
  unfold setStart; rw [scheduleNotify_errors]

theorem setSettle_loadings (w : World K V E) (k : K) (res : Except E V) :
    (setSettle w k res).store.loadings = upd w.store.loadings k (some false) := by
  cases res <;> (unfold setSettle; rw [scheduleNotify_loadings])

theorem setSettle_knowns (w : World K V E) (k : K) (res : Except E V) :
    (setSettle w k res).store.knowns = w.store.knowns := by
  cases res <;> (unfold setSettle; rw [scheduleNotify_knowns])

theorem setSettle_lives (w : World K V E) (k : K) (res : Except E V) :
    (setSettle w k res).store.lives = w.store.lives := by
  cases res <;> (unfold setSettle; rw [scheduleNotify_lives])

theorem setSettle_state_ok (w : World K V E) (k : K) (v : V) :
    (setSettle w k (Except.ok v)).store.state = upd w.store.state k (some v) := by
  unfold setSettle; rw [scheduleNotify_state]

theorem setSettle_state_err (w : World K V E) (k : K) (e : E) :
    (setSettle w k (Except.error e)).store.state = upd w.store.state k none := by
  unfold setSettle; rw [scheduleNotify_state]

theorem setSettle_errors_ok (w : World K V E) (k : K) (v : V) :
    (setSettle w k (Except.ok v)).store.errors = w.store.errors := by
  unfold setSettle; rw [scheduleNotify_errors]

theorem setSettle_errors_err (w : World K V E) (k : K) (e : E) :
    (setSettle w k (Except.error e)).store.errors = upd w.store.errors k (some e) := by
  unfold setSettle; rw [scheduleNotify_errors]

theorem runFlush_state (w : World K V E) :
    (runFlush w).store.state = w.store.state := by
  unfold runFlush notify; split <;> rfl

theorem runFlush_loadings (w : World K V E) :
    (runFlush w).store.loadings = w.store.loadings := by
  unfold runFlush notify; split <;> rfl

/-! ## Per-key effect lemmas for `unsetKey` and the observer operations -/

theorem unsetKey_knowns_at (w : World K V E) (j k : K) :
    (unsetKey w j).store.knowns k = if k = j then false else w.store.knowns k := by
  cases hd : w.store.disconnects j <;> simp [unsetKey, hd, upd]

theorem unsetKey_state_at (w : World K V E) (j k : K) :
    (unsetKey w j).store.state k = if k = j then none else w.store.state k := by
  cases hd : w.store.disconnects j <;> simp [unsetKey, hd, upd]

theorem unsetKey_loadings_at (w : World K V E) (j k : K) :
    (unsetKey w j).store.loadings k = if k = j then none else w.store.loadings k := by
  cases hd : w.store.disconnects j <;> simp [unsetKey, hd, upd]

theorem unsetKey_errors_at (w : World K V E) (j k : K) :
    (unsetKey w j).store.errors k = if k = j then none else w.store.errors k := by
  cases hd : w.store.disconnects j <;> simp [unsetKey, hd, upd]

theorem unsetKey_fired (w : World K V E) (k : K) :
    (unsetKey w k).fired =
      match w.store.disconnects k with
      | some id => w.fired ++ [id]
      | none => w.fired := by
  cases hd : w.store.disconnects k <;> simp [unsetKey, hd]

theorem unsetKey_disconnects_self (w : World K V E) (k : K) :
    (unsetKey w k).store.disconnects k = none := by
  cases hd : w.store.disconnects k <;> simp [unsetKey, hd, upd]

theorem unsetKey_pending (w : World K V E) (k : K) :
    (unsetKey w k).pending = w.pending := by
  cases hd : w.store.disconnects k <;> simp [unsetKey, hd]

theorem unsetKey_broadcasts (w : World K V E) (k : K) :
    (unsetKey w k).broadcasts = w.broadcasts := by
  cases hd : w.store.disconnects k <;> simp [unsetKey, hd]

theorem unsetKey_scheduled (w : World K V E) (k : K) :
    (unsetKey w k).store.notifyScheduled = w.store.notifyScheduled := by
  cases hd : w.store.disconnects k <;> simp [unsetKey, hd]

theorem foldl_unsetKey_env (ks : List K) (w : World K V E) :
    (ks.foldl unsetKey w).pending = w.pending ∧
    (ks.foldl unsetKey w).broadcasts = w.broadcasts ∧
    (ks.foldl unsetKey w).store.notifyScheduled = w.store.notifyScheduled := by
  induction ks generalizing w with
  | nil => exact ⟨rfl, rfl, rfl⟩
  | cons k rest ih =>
    have h := ih (unsetKey w k)
    simp only [List.foldl_cons]
    exact ⟨h.1.trans (unsetKey_pending w k),
           h.2.1.trans (unsetKey_broadcasts w k),
           h.2.2.trans (unsetKey_scheduled w k)⟩

theorem foldl_unsetKey_cleared (ks : List K) (w : World K V E) (k : K)
    (h : w.store.knowns k = false ∧ w.store.state k = none ∧
         w.store.loadings k = none ∧ w.store.errors k = none) :
    (ks.foldl unsetKey w).store.knowns k = false ∧
    (ks.foldl unsetKey w).store.state k = none ∧
    (ks.foldl unsetKey w).store.loadings k = none ∧
    (ks.foldl unsetKey w).store.errors k = none := by
  induction ks generalizing w with
  | nil => exact h
  | cons j rest ih =>
    simp only [List.foldl_cons]
    refine ih (unsetKey w j) ?_
    rw [unsetKey_knowns_at, unsetKey_state_at, unsetKey_loadings_at, unsetKey_errors_at]
    by_cases hkj : k = j <;> simp [hkj, h.1, h.2.1, h.2.2.1, h.2.2.2]

theorem foldl_unsetKey_mem (ks : List K) (w : World K V E) (k : K) (hk : k ∈ ks) :
    (ks.foldl unsetKey w).store.knowns k = false ∧
    (ks.foldl unsetKey w).store.state k = none ∧
    (ks.foldl unsetKey w).store.loadings k = none ∧
    (ks.foldl unsetKey w).store.errors k = none := by
  induction ks generalizing w with
  | nil => cases hk
  | cons j rest ih =>
    simp only [List.foldl_cons]
    rcases List.mem_cons.mp hk with hkj | hkr
    · subst hkj
      refine foldl_unsetKey_cleared rest (unsetKey w k) k ?_
      rw [unsetKey_knowns_at, unsetKey_state_at, unsetKey_loadings_at, unsetKey_errors_at]
      simp
    · exact ih (unsetKey w j) hkr

theorem setStateKey_pending (w : World K V E) (k : K) :
    (setStateKey w k).pending = w.pending := by
  cases hd : w.store.disconnects k <;> simp [setStateKey, hd]

theorem setStateKey_broadcasts (w : World K V E) (k : K) :
    (setStateKey w k).broadcasts = w.broadcasts := by
  cases hd : w.store.disconnects k <;> simp [setStateKey, hd]

theorem setStateKey_scheduled (w : World K V E) (k : K) :
    (setStateKey w k).store.notifyScheduled = w.store.notifyScheduled := by
  cases hd : w.store.disconnects k <;> simp [setStateKey, hd]

theorem foldl_setStateKey_env (ks : List K) (w : World K V E) :
    (ks.foldl setStateKey w).pending = w.pending ∧
    (ks.foldl setStateKey w).broadcasts = w.broadcasts ∧
    (ks.foldl setStateKey w).store.notifyScheduled = w.store.notifyScheduled := by
  induction ks generalizing w with
  | nil => exact ⟨rfl, rfl, rfl⟩
  | cons k rest ih =>
    have h := ih (setStateKey w k)
    simp only [List.foldl_cons]
    exact ⟨h.1.trans (setStateKey_pending w k),
           h.2.1.trans (setStateKey_broadcasts w k),
           h.2.2.trans (setStateKey_scheduled w k)⟩

theorem obsError_frame (h : Handle) (w : World K V E) (k : K) (err : E) (j : K)
    (hjk : j ≠ k) :
    (obsError h w k err).2.store.state j = w.store.state j ∧
    (obsError h w k err).2.store.loadings j = w.store.loadings j ∧
    (obsError h w k err).2.store.lives j = w.store.lives j ∧
    (obsError h w k err).2.store.errors j = w.store.errors j ∧
    (obsError h w k err).2.store.knowns = w.store.knowns := by
  cases hcl : h.closed
  · simp [obsError, hcl, scheduleNotify_state, scheduleNotify_loadings,
      scheduleNotify_lives, scheduleNotify_errors, scheduleNotify_knowns, hjk]
  · simp [obsError, hcl]

theorem obsNext_frame (t : Option (V → Except E V)) (h : Handle) (w : World K V E)
    (k : K) (v : V) (j : K) (hjk : j ≠ k) :
    (obsNext t h w k v).2.store.state j = w.store.state j ∧
    (obsNext t h w k v).2.store.loadings j = w.store.loadings j ∧
    (obsNext t h w k v).2.store.lives j = w.store.lives j ∧
    (obsNext t h w k v).2.store.errors j = w.store.errors j ∧
    (obsNext t h w k v).2.store.knowns = w.store.knowns := by
  cases hcl : h.closed
  · cases t with
    | none =>
      simp [obsNext, hcl, scheduleNotify_state, scheduleNotify_loadings,
        scheduleNotify_lives, scheduleNotify_errors, scheduleNotify_knowns, hjk]
    | some f =>
      cases hfv : f v with
      | error err =>
        simp only [obsNext, hcl, hfv, Bool.false_eq_true, if_false]
        exact obsError_frame h w k err j hjk
      | ok fv =>
        simp [obsNext, hcl, hfv, scheduleNotify_state, scheduleNotify_loadings,
          scheduleNotify_lives, scheduleNotify_errors, scheduleNotify_knowns, hjk]
  · simp [obsNext, hcl]

theorem obsComplete_frame (h : Handle) (w : World K V E) (k : K) (j : K)
    (hjk : j ≠ k) :
    (obsComplete h w k).2.store.state j = w.store.state j ∧
    (obsComplete h w k).2.store.loadings j = w.store.loadings j ∧
    (obsComplete h w k).2.store.lives j = w.store.lives j ∧
    (obsComplete h w k).2.store.errors j = w.store.errors j ∧
    (obsComplete h w k).2.store.knowns = w.store.knowns := by
  cases hcl : h.closed
  · simp [obsComplete, hcl, scheduleNotify_state, scheduleNotify_loadings,
      scheduleNotify_lives, scheduleNotify_errors, scheduleNotify_knowns, hjk]
  · simp [obsComplete, hcl]

/-! ## Scheduler lemmas for bursts and flushes -/

theorem subscribeOp_mem (w : World K V E) (s : Nat) :
    s ∈ (subscribeOp w s).store.subscriptions := by
  by_cases h : s ∈ w.store.subscriptions <;> simp [subscribeOp, h]

theorem runFlush_pos (w : World K V E) (h : ¬ w.pending = 0) :
    (runFlush w).broadcasts = w.broadcasts ++ [⟨w.store.subscriptions, w.store.state⟩] ∧
    (runFlush w).pending = w.pending - 1 ∧
    (runFlush w).store.notifyScheduled = false := by
  unfold runFlush notify
  rw [if_neg h]
  exact ⟨rfl, rfl, rfl⟩

theorem applyOp_as_schedule (w : World K V E) (op : WOp K V E) :
    ∃ w1 : World K V E, applyOp w op = scheduleNotify w1 ∧
      w1.pending = w.pending ∧ w1.broadcasts = w.broadcasts ∧
      w1.store.notifyScheduled = w.store.notifyScheduled := by
  cases op with
  | stateOp m =>
    have h := foldl_setStateKey_env (m.map Prod.fst) w
    exact ⟨_, rfl, h.1, h.2.1, h.2.2⟩
  | startOp k => exact ⟨_, rfl, rfl, rfl, rfl⟩
  | settleOp k r => cases r <;> exact ⟨_, rfl, rfl, rfl, rfl⟩
  | unsetOp ks =>
    have h := foldl_unsetKey_env ks w
    exact ⟨_, rfl, h.1, h.2.1, h.2.2⟩

theorem applyOp_scheduled (w : World K V E) (op : WOp K V E) :
    (applyOp w op).store.notifyScheduled = true := by
  obtain ⟨w1, heq, _, _, _⟩ := applyOp_as_schedule w op
  rw [heq]
  exact scheduleNotify_scheduled w1

theorem applyOp_pending (w : World K V E) (op : WOp K V E) :
    (applyOp w op).pending =
      if w.store.notifyScheduled = true then w.pending else w.pending + 1 := by
  obtain ⟨w1, heq, hp, _, hs⟩ := applyOp_as_schedule w op
  rw [heq, scheduleNotify_pending, hp, hs]

theorem applyOp_broadcasts (w : World K V E) (op : WOp K V E) :
    (applyOp w op).broadcasts = w.broadcasts := by
  obtain ⟨w1, heq, _, hb, _⟩ := applyOp_as_schedule w op
  rw [heq, scheduleNotify_broadcasts, hb]

theorem runBurst_busy (ops : List (WOp K V E)) (w : World K V E)
    (hs : w.store.notifyScheduled = true) :
    (runBurst w ops).store.notifyScheduled = true ∧
    (runBurst w ops).pending = w.pending ∧
    (runBurst w ops).broadcasts = w.broadcasts := by
  induction ops generalizing w with
  | nil => exact ⟨hs, rfl, rfl⟩
  | cons op rest ih =>
    have h := ih (applyOp w op) (applyOp_scheduled w op)
    simp only [runBurst, List.foldl_cons] at h ⊢
    refine ⟨h.1, ?_, ?_⟩
    · rw [h.2.1, applyOp_pending, if_pos hs]
    · rw [h.2.2, applyOp_broadcasts]

theorem runBurst_idle (ops : List (WOp K V E)) (w : World K V E)
    (hs : w.store.notifyScheduled = false) (hne : ops ≠ []) :
    (runBurst w ops).store.notifyScheduled = true ∧
    (runBurst w ops).pending = w.pending + 1 ∧
    (runBurst w ops).broadcasts = w.broadcasts := by
  cases ops with
  | nil => exact absurd rfl hne
  | cons op rest =>
    have h := runBurst_busy rest (applyOp w op) (applyOp_scheduled w op)
    simp only [runBurst, List.foldl_cons] at h ⊢
    refine ⟨h.1, ?_, ?_⟩
    · rw [h.2.1, applyOp_pending, hs]
      simp
    · rw [h.2.2, applyOp_broadcasts]

/-! ## Claim theorems -/

/-- C1: stale-write scenario. `set(store, 0, d)` is called with a pending
deferred `d`; before `d` settles, `set(store, 0, 2)` is called with a
literal. The literal call's settlement continuation runs (its
`Promise.resolve(2)` settles immediately), then `d` settles with `1` and the
first call's continuation runs. The source has no stale-write guard: the
stale continuation overwrites the newer value and the final value is `1`,
not `2` as the specification requires. -/
theorem stale_write_overwrites :
    get
        (setSettle (setSettle (setStart (setStart emptyWorld 0) 0) 0 (Except.ok 2)) 0
          (Except.ok 1)).store 0 = some 1 ∧
    ¬ get
        (setSettle (setSettle (setStart (setStart emptyWorld 0) 0) 0 (Except.ok 2)) 0
          (Except.ok 1)).store 0 = some 2 := by
  constructor
  · rfl
  · decide

/-- C2 counterexample: immediately after the synchronous phase of
`set(store, 0, v)` with a literal `v`, the key is loading and its value is
withdrawn — the claim's synchronous single-key-`setState` behaviour
(loading stays false, value written at once, no withdrawn state) is false
on the code, which sends literals down the deferred path. -/
theorem set_literal_sync_counterexample :
    loading (setStart emptyWorld 0).store [0] = true ∧
    get (setStart emptyWorld 0).store 0 = none := by
  decide

/-- C2 (amended): for every store, key `k` and literal value `v`,
`set(store, k, v)` takes the deferred path: synchronously it marks `k`
known, withdraws the value and sets loading true; its settlement
continuation (one microtask later, since `Promise.resolve(v)` settles
immediately) writes `v` and clears loading; after the microtask flush
`get` returns `v` and loading is false. -/
theorem set_literal_lifecycle (w : World K V E) (k : K) (v : V) :
    (setStart w k).store.knowns k = true ∧
    loading (setStart w k).store [k] = true ∧
    get (setStart w k).store k = none ∧
    get (setSettle (setStart w k) k (Except.ok v)).store k = some v ∧
    loading (setSettle (setStart w k) k (Except.ok v)).store [k] = false ∧
    get (runFlush (setSettle (setStart w k) k (Except.ok v))).store k = some v ∧
    loading (runFlush (setSettle (setStart w k) k (Except.ok v))).store [k] = false := by
  refine ⟨?_, ?_, ?_, ?_, ?_, ?_, ?_⟩ <;>
    simp [get, loading_single, setStart_state, setStart_knowns, setStart_loadings,
      setSettle_state_ok, setSettle_loadings, runFlush_state, runFlush_loadings]

/-- C3: deferred-write lifecycle. Immediately after the synchronous phase of
`set(store, k, p)` with a deferred `p`, the key is loading and its value is
withdrawn; if `p` settles successfully with `r`, loading is false and `get`
returns `r`; if `p` rejects with `e`, the value is absent, `error` returns
`e` and loading is false. -/
theorem set_deferred_lifecycle (w : World K V E) (k : K) :
    loading (setStart w k).store [k] = true ∧
    get (setStart w k).store k = none ∧
    (∀ r : V,
      loading (setSettle (setStart w k) k (Except.ok r)).store [k] = false ∧
      get (setSettle (setStart w k) k (Except.ok r)).store k = some r) ∧
    (∀ e : E,
      get (setSettle (setStart w k) k (Except.error e)).store k = none ∧
      error (setSettle (setStart w k) k (Except.error e)).store [k] = some e ∧
      loading (setSettle (setStart w k) k (Except.error e)).store [k] = false) := by
  refine ⟨?_, ?_, fun r => ⟨?_, ?_⟩, fun e => ⟨?_, ?_, ?_⟩⟩ <;>
    simp [get, loading_single, error_single, setStart_state, setStart_loadings,
      setSettle_state_ok, setSettle_state_err, setSettle_loadings, setSettle_errors_err]

/-- C4: the Key Writer operations never raise. `setState`, `unset` and the
synchronous phase of `set` translate to total functions with no
exception-producing construct; the one throw site — the awaited promise
rejecting — sits inside `set`'s `try`/`catch`, so the settlement phase with
exception propagation made explicit (`setSettleM`) always returns
`Except.ok`: the async function's returned promise resolves rather than
rejecting, and a rejection reason is converted into the key's error status
with the value withdrawn. -/
theorem key_writer_no_throw (w : World K V E) (k : K) (res : Except E V) :
    setSettleM w k res = Except.ok (setSettle w k res) ∧
    (∀ e : E, res = Except.error e →
      error (setSettle w k res).store [k] = some e ∧
      get (setSettle w k res).store k = none) := by
  constructor
  · cases res <;> rfl
  · rintro e rfl
    constructor
    · rw [error_single, setSettle_errors_err]; simp
    · show (setSettle w k (Except.error e)).store.state k = none
      rw [setSettle_state_err]; simp

/-- C4 witness: at a concrete store, key and rejection reason, the
settlement phase returns `Except.ok` and records the reason as the key's
error with the value withdrawn. -/
theorem key_writer_no_throw_witness :
    setSettleM emptyWorld 0 (Except.error 7) =
      Except.ok (setSettle emptyWorld 0 (Except.error 7)) ∧
    error (setSettle emptyWorld 0 (Except.error 7)).store [0] = some 7 ∧
    get (setSettle emptyWorld 0 (Except.error 7)).store 0 = none := by
  have h := key_writer_no_throw emptyWorld 0 (Except.error 7)
  exact ⟨h.1, (h.2 7 rfl).1, (h.2 7 rfl).2⟩

/-- C5: an observer handle is single-use. Once `closed` is set, `next`,
`error` and `complete` all return the handle and the world unchanged — a
silent no-op that raises nothing and mutates no store field. -/
theorem handle_single_use (t : Option (V → Except E V)) (h : Handle)
    (w : World K V E) (k : K) (v : V) (err : E) (hc : h.closed = true) :
    obsNext t h w k v = (h, w) ∧
    obsError h w k err = (h, w) ∧
    obsComplete h w k = (h, w) := by
  refine ⟨?_, ?_, ?_⟩ <;> simp [obsNext, obsError, obsComplete, hc]

/-- C5 witness: a closed handle at concrete inputs leaves everything
untouched. -/
theorem handle_single_use_witness :
    obsNext (none : Option (Nat → Except Nat Nat)) ⟨true⟩ emptyWorld 0 0 =
      (⟨true⟩, emptyWorld) ∧
    obsError ⟨true⟩ emptyWorld 0 0 = (⟨true⟩, emptyWorld) ∧
    obsComplete ⟨true⟩ emptyWorld 0 = (⟨true⟩, emptyWorld) :=
  handle_single_use none ⟨true⟩ emptyWorld 0 0 0 rfl

/-- C6: a transform throw inside `next` on an open handle is routed to the
handle's `error` path (same result as calling `error(err)`: handle closed,
loading false, value withdrawn, error recorded, live false, notification
requested), and no exception escapes `next` (`obsNextM`, the translation
with propagation made explicit, returns `Except.ok`); when the transform
succeeds, the value written for the key is the transformed one. -/
theorem next_transform_error_routes (f : V → Except E V) (h : Handle)
    (w : World K V E) (k : K) (v : V) (hc : h.closed = false) :
    obsNextM (some f) h w k v = Except.ok (obsNext (some f) h w k v) ∧
    (∀ err : E, f v = Except.error err →
      obsNext (some f) h w k v = obsError h w k err ∧
      (obsNext (some f) h w k v).1.closed = true ∧
      (obsNext (some f) h w k v).2.store.loadings k = some false ∧
      (obsNext (some f) h w k v).2.store.state k = none ∧
      (obsNext (some f) h w k v).2.store.errors k = some err ∧
      (obsNext (some f) h w k v).2.store.lives k = some false ∧
      (obsNext (some f) h w k v).2.store.notifyScheduled = true) ∧
    (∀ fv : V, f v = Except.ok fv →
      (obsNext (some f) h w k v).1 = h ∧
      get (obsNext (some f) h w k v).2.store k = some fv ∧
      (obsNext (some f) h w k v).2.store.loadings k = some false) := by
  refine ⟨?_, ?_, ?_⟩
  · cases hfv : f v <;> simp [obsNextM, obsNext, hc, hfv]
  · intro err hfv
    simp [obsNext, obsError, hc, hfv, scheduleNotify_state, scheduleNotify_loadings,
      scheduleNotify_errors, scheduleNotify_lives, scheduleNotify_scheduled]
  · intro fv hfv
    simp [obsNext, get, hc, hfv, scheduleNotify_state, scheduleNotify_loadings]

/-- C6 witness: with the transform that throws `7` on input `0` and returns
`n + 1` otherwise, `next 0` on an open handle equals `error 7`, and
`next 1` writes the transformed value `2`. -/
theorem next_transform_error_routes_witness :
    obsNext (some fun n => if n = 0 then Except.error 7 else Except.ok (n + 1))
        ⟨false⟩ emptyWorld 0 0 =
      obsError ⟨false⟩ emptyWorld 0 7 ∧
    get
        (obsNext (some fun n => if n = 0 then Except.error 7 else Except.ok (n + 1))
          ⟨false⟩ emptyWorld 0 1).2.store 0 = some 2 := by
  refine ⟨?_, ?_⟩
  · exact ((next_transform_error_routes
      (fun n => if n = 0 then Except.error 7 else Except.ok (n + 1))
      ⟨false⟩ emptyWorld 0 0 rfl).2.1 7 rfl).1
  · exact ((next_transform_error_routes
      (fun n => if n = 0 then Except.error 7 else Except.ok (n + 1))
      ⟨false⟩ emptyWorld 0 1 rfl).2.2 2 (by simp)).2.1

/-- C7 counterexample: constructing a stream handle via `observer` on an
empty store sets loading and live for the key but does not add it to the
store's known set — the key is still unknown immediately after
construction, refuting the claim's "makes k known". -/
theorem observer_known_counterexample :
    (observerInit emptyWorld 0).2.store.knowns 0 = false ∧
    (observerInit emptyWorld 0).2.store.loadings 0 = some true ∧
    (observerInit emptyWorld 0).2.store.lives 0 = some true := by
  decide

/-- C7 (amended): constructing a stream handle via `observer(store, k,
options)` immediately — before any value arrives — sets loading true and
live true for `k` and returns an open handle, but leaves the store's known
set entirely unchanged: `observer` does not make `k` known. -/
theorem observer_init_effects (w : World K V E) (k : K) :
    (observerInit w k).2.store.loadings k = some true ∧
    (observerInit w k).2.store.lives k = some true ∧
    (observerInit w k).2.store.knowns = w.store.knowns ∧
    (observerInit w k).1.closed = false := by
  refine ⟨?_, ?_, rfl, rfl⟩ <;> simp [observerInit]

/-- C8 counterexample: attaching a stream via `observer` records no
teardown in `disconnects`, so `unset` right after a stream attach invokes
no teardown at all — the invocation log stays empty, refuting "invokes that
stream's teardown exactly once". -/
theorem unset_teardown_counterexample :
    (unset (observerInit emptyWorld 0).2 [0]).fired = [] ∧
    (observerInit emptyWorld 0).2.store.disconnects 0 = none := by
  decide

/-- C8 (amended): `unset(store, ...keys)` removes each given key from
`knowns` and deletes its state, loading and error entries; it invokes a
teardown recorded in `disconnects` exactly once and removes it, but since
`observer` records no teardown, `unset` after a stream attach (on a store
with no recorded teardown for the key) invokes none; and the whole call
requests a single notification. -/
theorem unset_effects (w : World K V E) (keys : List K) (k : K) :
    (k ∈ keys →
      (unset w keys).store.knowns k = false ∧
      (unset w keys).store.state k = none ∧
      (unset w keys).store.loadings k = none ∧
      (unset w keys).store.errors k = none) ∧
    (∀ id : Nat, w.store.disconnects k = some id →
      (unset w [k]).fired = w.fired ++ [id] ∧
      (unset w [k]).store.disconnects k = none) ∧
    (w.store.disconnects k = none →
      (unset w [k]).fired = w.fired ∧
      (unset (observerInit w k).2 [k]).fired = w.fired) ∧
    (observerInit w k).2.store.disconnects = w.store.disconnects ∧
    (w.store.notifyScheduled = false →
      (unset w keys).store.notifyScheduled = true ∧
      (unset w keys).pending = w.pending + 1) := by
  refine ⟨?_, ?_, ?_, rfl, ?_⟩
  · intro hk
    have h := foldl_unsetKey_mem keys w k hk
    refine ⟨?_, ?_, ?_, ?_⟩ <;>
      simp only [unset, scheduleNotify_knowns, scheduleNotify_state,
        scheduleNotify_loadings, scheduleNotify_errors]
    · exact h.1
    · exact h.2.1
    · exact h.2.2.1
    · exact h.2.2.2
  · intro id hid
    constructor
    · simp only [unset, List.foldl_cons, List.foldl_nil, scheduleNotify_fired]
      rw [unsetKey_fired, hid]
    · simp only [unset, List.foldl_cons, List.foldl_nil, scheduleNotify_disconnects]
      exact unsetKey_disconnects_self w k
  · intro hnone
    constructor
    · simp only [unset, List.foldl_cons, List.foldl_nil, scheduleNotify_fired]
      rw [unsetKey_fired, hnone]
    · simp only [unset, List.foldl_cons, List.foldl_nil, scheduleNotify_fired]
      have h2 : (observerInit w k).2.store.disconnects k = none := hnone
      rw [unsetKey_fired, h2]
      rfl
  · intro hns
    have h := foldl_unsetKey_env keys w
    constructor
    · exact scheduleNotify_scheduled _
    · simp only [unset]
      rw [scheduleNotify_pending, h.1, h.2.2, hns]
      simp

/-- C8 witness: on concrete stores, `unset` clears the key's entries and
requests one notification; with a recorded teardown id `3` it fires it
exactly once and removes it; with none recorded (and after a stream
attach) it fires nothing. -/
theorem unset_effects_witness :
    (unset emptyWorld [0]).store.knowns 0 = false ∧
    (unset emptyWorld [0]).store.state 0 = none ∧
    (unset discWorld [0]).fired = discWorld.fired ++ [3] ∧
    (unset discWorld [0]).store.disconnects 0 = none ∧
    (unset emptyWorld [0]).fired = emptyWorld.fired ∧
    (unset (observerInit emptyWorld 0).2 [0]).fired = emptyWorld.fired ∧
    (unset emptyWorld [0]).store.notifyScheduled = true ∧
    (unset emptyWorld [0]).pending = emptyWorld.pending + 1 := by
  have h1 := unset_effects emptyWorld [0] 0
  have h2 := unset_effects discWorld [0] 0
  have hmem : (0 : Nat) ∈ [(0 : Nat)] := by simp
  have hdisc : discWorld.store.disconnects 0 = some 3 := by decide
  exact ⟨(h1.1 hmem).1, (h1.1 hmem).2.1, (h2.2.1 3 hdisc).1, (h2.2.1 3 hdisc).2,
    (h1.2.2.1 rfl).1, (h1.2.2.1 rfl).2, (h1.2.2.2.2 rfl).1, (h1.2.2.2.2 rfl).2⟩

/-- C9: notification batching. Requesting a notification while one is
scheduled is a complete no-op; any nonempty synchronous burst of Key Writer
mutations started from an idle scheduler leaves exactly one queued flush and
produces no broadcast during the burst; and running that flush — even after
a subscriber was added post-burst — delivers exactly one broadcast whose
snapshot is the final post-burst state and whose recipients are the
subscriptions at flush time, including the late subscriber, after which the
scheduler is idle again. -/
theorem notification_batching :
    (∀ w : World K V E, w.store.notifyScheduled = true → scheduleNotify w = w) ∧
    (∀ (w : World K V E) (ops : List (WOp K V E)),
      w.store.notifyScheduled = false → ops ≠ [] →
      (runBurst w ops).broadcasts = w.broadcasts ∧
      (runBurst w ops).pending = w.pending + 1 ∧
      (runBurst w ops).store.notifyScheduled = true) ∧
    (∀ (w : World K V E) (ops : List (WOp K V E)) (s : Nat),
      w.store.notifyScheduled = false → w.pending = 0 → ops ≠ [] →
      s ∈ (subscribeOp (runBurst w ops) s).store.subscriptions ∧
      (runFlush (subscribeOp (runBurst w ops) s)).broadcasts =
        w.broadcasts ++
          [⟨(subscribeOp (runBurst w ops) s).store.subscriptions,
            (runBurst w ops).store.state⟩] ∧
      (runFlush (subscribeOp (runBurst w ops) s)).pending = 0 ∧
      (runFlush (subscribeOp (runBurst w ops) s)).store.notifyScheduled = false) := by
  refine ⟨?_, ?_, ?_⟩
  · intro w h
    unfold scheduleNotify
    rw [if_pos h]
  · intro w ops hs hne
    have h := runBurst_idle ops w hs hne
    exact ⟨h.2.2, h.2.1, h.1⟩
  · intro w ops s hs hp hne
    have hB := runBurst_idle ops w hs hne
    have hpend : (subscribeOp (runBurst w ops) s).pending = 1 := by
      show (runBurst w ops).pending = 1
      rw [hB.2.1, hp]
    have hfl := runFlush_pos (subscribeOp (runBurst w ops) s)
      (by rw [hpend]; exact one_ne_zero)
    refine ⟨subscribeOp_mem _ s, ?_, ?_, hfl.2.2⟩
    · rw [hfl.1]
      have hbr : (subscribeOp (runBurst w ops) s).broadcasts = w.broadcasts := hB.2.2
      have hst : (subscribeOp (runBurst w ops) s).store.state =
          (runBurst w ops).store.state := rfl
      rw [hbr, hst]
    · rw [hfl.2.1, hpend]

/-- C9 witness: on a concrete idle store, a one-operation burst schedules
exactly one flush, a repeated request is a no-op, and flushing after adding
subscriber `5` delivers one broadcast of the final state to it. -/
theorem notification_batching_witness :
    scheduleNotify (setStart emptyWorld 0) = setStart emptyWorld 0 ∧
    (runBurst emptyWorld [WOp.startOp 0]).pending = emptyWorld.pending + 1 ∧
    5 ∈ (subscribeOp (runBurst emptyWorld [WOp.startOp 0]) 5).store.subscriptions ∧
    (runFlush (subscribeOp (runBurst emptyWorld [WOp.startOp 0]) 5)).broadcasts =
      emptyWorld.broadcasts ++
        [⟨(subscribeOp (runBurst emptyWorld [WOp.startOp 0]) 5).store.subscriptions,
          (runBurst emptyWorld [WOp.startOp 0]).store.state⟩] ∧
    (runFlush (subscribeOp (runBurst emptyWorld [WOp.startOp 0]) 5)).pending = 0 := by
  have hne : ([WOp.startOp 0] : List (WOp Nat Nat Nat)) ≠ [] := by simp
  refine ⟨notification_batching.1 (setStart emptyWorld 0) (by decide),
    (notification_batching.2.1 emptyWorld [WOp.startOp 0] rfl hne).2.1,
    (notification_batching.2.2 emptyWorld [WOp.startOp 0] 5 rfl rfl hne).1,
    (notification_batching.2.2 emptyWorld [WOp.startOp 0] 5 rfl rfl hne).2.1,
    (notification_batching.2.2 emptyWorld [WOp.startOp 0] 5 rfl rfl hne).2.2.1⟩

/-- C10: per-key frame property. The synchronous phase and the settlement
continuation of `set(store, k, _)`, and `next`/`error`/`complete` on an
observer handle bound to `k`, leave the state, loading, live and error
entries of every other key `j` unchanged, and none of them ever removes a
key from the known set. -/
theorem single_key_frame (w : World K V E) (k j : K) (hjk : j ≠ k) :
    ((setStart w k).store.state j = w.store.state j ∧
     (setStart w k).store.loadings j = w.store.loadings j ∧
     (setStart w k).store.lives j = w.store.lives j ∧
     (setStart w k).store.errors j = w.store.errors j) ∧
    (∀ res : Except E V,
      (setSettle w k res).store.state j = w.store.state j ∧
      (setSettle w k res).store.loadings j = w.store.loadings j ∧
      (setSettle w k res).store.lives j = w.store.lives j ∧
      (setSettle w k res).store.errors j = w.store.errors j) ∧
    (∀ (t : Option (V → Except E V)) (h : Handle) (v : V),
      (obsNext t h w k v).2.store.state j = w.store.state j ∧
      (obsNext t h w k v).2.store.loadings j = w.store.loadings j ∧
      (obsNext t h w k v).2.store.lives j = w.store.lives j ∧
      (obsNext t h w k v).2.store.errors j = w.store.errors j) ∧
    (∀ (h : Handle) (err : E),
      (obsError h w k err).2.store.state j = w.store.state j ∧
      (obsError h w k err).2.store.loadings j = w.store.loadings j ∧
      (obsError h w k err).2.store.lives j = w.store.lives j ∧
      (obsError h w k err).2.store.errors j = w.store.errors j) ∧
    (∀ h : Handle,
      (obsComplete h w k).2.store.state j = w.store.state j ∧
      (obsComplete h w k).2.store.loadings j = w.store.loadings j ∧
      (obsComplete h w k).2.store.lives j = w.store.lives j ∧
      (obsComplete h w k).2.store.errors j = w.store.errors j) ∧
    (∀ i : K, w.store.knowns i = true →
      (setStart w k).store.knowns i = true ∧
      (∀ res : Except E V, (setSettle w k res).store.knowns i = true) ∧
      (∀ (t : Option (V → Except E V)) (h : Handle) (v : V),
        (obsNext t h w k v).2.store.knowns i = true) ∧
      (∀ (h : Handle) (err : E), (obsError h w k err).2.store.knowns i = true) ∧
      (∀ h : Handle, (obsComplete h w k).2.store.knowns i = true)) := by
  refine ⟨?_, ?_, ?_, ?_, ?_, ?_⟩
  · exact ⟨by simp [setStart_state, hjk], by simp [setStart_loadings, hjk],
      by simp [setStart_lives, hjk], by simp [setStart_errors, hjk]⟩
  · intro res
    cases res <;>
      simp [setSettle_state_ok, setSettle_state_err, setSettle_loadings,
        setSettle_lives, setSettle_errors_ok, setSettle_errors_err, hjk]
  · intro t h v
    exact ⟨(obsNext_frame t h w k v j hjk).1, (obsNext_frame t h w k v j hjk).2.1,
      (obsNext_frame t h w k v j hjk).2.2.1, (obsNext_frame t h w k v j hjk).2.2.2.1⟩
  · intro h err
    exact ⟨(obsError_frame h w k err j hjk).1, (obsError_frame h w k err j hjk).2.1,
      (obsError_frame h w k err j hjk).2.2.1, (obsError_frame h w k err j hjk).2.2.2.1⟩
  · intro h
    exact ⟨(obsComplete_frame h w k j hjk).1, (obsComplete_frame h w k j hjk).2.1,
      (obsComplete_frame h w k j hjk).2.2.1, (obsComplete_frame h w k j hjk).2.2.2.1⟩
  · intro i hi
    refine ⟨?_, ?_, ?_, ?_, ?_⟩
    · by_cases hik : i = k <;> simp [setStart_knowns, upd, hik, hi]
    · intro res
      rw [setSettle_knowns]
      exact hi
    · intro t h v
      rw [(obsNext_frame t h w k v j hjk).2.2.2.2]
      exact hi
    · intro h err
      rw [(obsError_frame h w k err j hjk).2.2.2.2]
      exact hi
    · intro h
      rw [(obsComplete_frame h w k j hjk).2.2.2.2]
      exact hi

/-- C10 witness: at a concrete store (with key `2` known), operations on
key `0` leave key `1`'s entries unchanged and key `2` known. -/
theorem single_key_frame_witness :
    (setStart (setStart emptyWorld 2) 0).store.state 1 =
      (setStart emptyWorld 2).store.state 1 ∧
    (setSettle (setStart emptyWorld 2) 0 (Except.ok 5)).store.errors 1 =
      (setStart emptyWorld 2).store.errors 1 ∧
    (obsNext (none : Option (Nat → Except Nat Nat)) ⟨false⟩
        (setStart emptyWorld 2) 0 5).2.store.state 1 =
      (setStart emptyWorld 2).store.state 1 ∧
    (obsError ⟨false⟩ (setStart emptyWorld 2) 0 7).2.store.lives 1 =
      (setStart emptyWorld 2).store.lives 1 ∧
    (obsComplete ⟨false⟩ (setStart emptyWorld 2) 0).2.store.loadings 1 =
      (setStart emptyWorld 2).store.loadings 1 ∧
    (setStart (setStart emptyWorld 2) 0).store.knowns 2 = true := by
  have h := single_key_frame (setStart emptyWorld 2) 0 1 (by decide)
  exact ⟨h.1.1, (h.2.1 (Except.ok 5)).2.2.2, (h.2.2.1 none ⟨false⟩ 5).1,
    (h.2.2.2.1 ⟨false⟩ 7).2.2.1, (h.2.2.2.2.1 ⟨false⟩).2.1,
    (h.2.2.2.2.2 2 (by decide)).1⟩

end Joystate
